import Mathlib

/-! EASTL `type_fundamental.h`: the fundamental type-classification traits

A shallow embedding of `include/EASTL/internal/type_fundamental.h`.

The header is a compile-time program: every trait is a class template whose
`value` is selected by exact type identity among the primary template and its
explicit specialisations.  The embedding therefore has

* a universe `Ty` of C++ types (the argument of a trait),
* one Lean function per trait, whose match arms are the explicit
  specialisations of the header, in the header's order, and whose default arm
  is the primary template,
* a record `Specializations` of the explicit specialisations that client code
  has added with `EASTL_DECLARE_INTEGRAL` / `EASTL_DECLARE_FLOATING_POINT`,
  and the two macros as fallible state transformers on that record.

Preprocessor conditions of the header are fields of `Config`.
-/

namespace eastl

/-! ## The type universe -/

/-- The builtin (fundamental and character) types that the header or the
specification name.  `signed short`, `signed int`, `signed long` and
`signed long long` are other spellings of `short`, `int`, `long` and
`long long`; `signed char` is a type of its own. -/
inductive Builtin
  | void
  | nullptr_t
  | bool
  | char
  | signed_char
  | unsigned_char
  | wchar_t
  | char16_t
  | char32_t
  | short
  | int
  | long
  | long_long
  | unsigned_short
  | unsigned_int
  | unsigned_long
  | unsigned_long_long
  | float
  | double
  | long_double
  deriving DecidableEq, Repr

/-- A set of top-level cv-qualifiers. -/
structure CV where
  isConst : Bool
  isVolatile : Bool
  deriving DecidableEq, Repr

/-- C++ types.  Object types carry their top-level cv-qualifiers.  A reference
type has none (qualifiers applied to it through a type name are dropped); the
qualification of an array type is that of its element type. -/
inductive Ty
  /-- a builtin type, e.g. `const int` -/
  | builtin (q : CV) (b : Builtin)
  /-- a class, struct or union type, identified by a number -/
  | class_type (q : CV) (id : Nat)
  /-- an enumeration type, identified by a number -/
  | enum_type (q : CV) (id : Nat)
  /-- the pointer type `pointee * q` -/
  | pointer (q : CV) (pointee : Ty)
  /-- the lvalue reference `referee &` -/
  | lvalue_ref (referee : Ty)
  /-- the rvalue reference `referee &&` -/
  | rvalue_ref (referee : Ty)
  /-- the array `elem[bound]`, or `elem[]` when there is no bound -/
  | array (elem : Ty) (bound : Option Nat)
  deriving DecidableEq, Repr

namespace CV

/-- No qualifier. -/
def none : CV := ⟨false, false⟩

/-- The qualifier `const`. -/
def const : CV := ⟨true, false⟩

/-- The qualifier `volatile`. -/
def volatile : CV := ⟨false, true⟩

/-- The qualifiers `const volatile`. -/
def const_volatile : CV := ⟨true, true⟩

/-- Union of two qualifier sets (`const const T` through a type name is `const T`). -/
def union (p q : CV) : CV := ⟨p.isConst || q.isConst, p.isVolatile || q.isVolatile⟩

end CV

namespace Ty

/-- The type written `q T` when `T` is a type name: the qualifiers are added to
those `T` already has, are dropped for a reference, and go to the element type
of an array. -/
def add_cv (q : CV) : Ty → Ty
  | builtin p b => builtin (CV.union q p) b
  | class_type p n => class_type (CV.union q p) n
  | enum_type p n => enum_type (CV.union q p) n
  | pointer p t => pointer (CV.union q p) t
  | lvalue_ref t => lvalue_ref t
  | rvalue_ref t => rvalue_ref t
  | array e n => array (add_cv q e) n

/-- The type `const T`. -/
def const (T : Ty) : Ty := add_cv CV.const T

/-- The type `volatile T`. -/
def volatile (T : Ty) : Ty := add_cv CV.volatile T

/-- The type `const volatile T`. -/
def const_volatile (T : Ty) : Ty := add_cv CV.const_volatile T

/-- The unqualified builtin type `b`. -/
def prim (b : Builtin) : Ty := builtin CV.none b

/-- The type `T*`. -/
def ptr (T : Ty) : Ty := pointer CV.none T

end Ty

/-- Modelled from the spec: `eastl::remove_cv<T>::type`, which this header uses
but does not define.  "Input any cv-qualification of T, output the unqualified
T": the top-level qualifiers are removed; a reference has none; those of an
array are the qualifiers of its elements. -/
def remove_cv : Ty → Ty
  | .builtin _ b => .builtin CV.none b
  | .class_type _ n => .class_type CV.none n
  | .enum_type _ n => .enum_type CV.none n
  | .pointer _ t => .pointer CV.none t
  | .lvalue_ref t => .lvalue_ref t
  | .rvalue_ref t => .rvalue_ref t
  | .array e n => .array (remove_cv e) n

/-- Modelled from the spec: `eastl::is_same<T, U>::value`, which this header
uses but does not define: "exact type identity". -/
def is_same (T U : Ty) : Bool := decide (T = U)

/-- The type of the literal `nullptr`, written `decltype(nullptr)`. -/
def decltype_nullptr : Ty := Ty.prim Builtin.nullptr_t

/-- Modelled from the spec: `std::nullptr_t`, declared by `EABase/nullptr.h`
and not by this header: "the type of the null-pointer literal (the canonical
null-pointer type)". -/
def std_nullptr_t : Ty := decltype_nullptr

/-! ## Build configuration -/

/-- The preprocessor conditions the header branches on. -/
structure Config where
  /-- `EA_WCHAR_T_NON_NATIVE` is defined: `wchar_t` is a name for another
  integer type and not a type of its own. -/
  EA_WCHAR_T_NON_NATIVE : Bool
  /-- `EA_COMPILER_NO_VARIADIC_TEMPLATES` is defined. -/
  EA_COMPILER_NO_VARIADIC_TEMPLATES : Bool
  /-- The condition of line 82:
  `EA_COMPILER_CPP11_ENABLED && !EA_COMPILER_NO_DECLTYPE && !_MSC_VER`. -/
  cpp11_decltype : Bool
  deriving DecidableEq, Repr

/-- A conforming C++11 build: native `wchar_t`, variadic templates, `decltype`. -/
def Config.standard : Config := ⟨false, false, true⟩

/-! ## `is_void` (lines 31-36) -/

/-- The trait `is_void<T>::value`: the primary template is `false_type`, and
there are four explicit specialisations. -/
def is_void : Ty → Bool
  | .builtin ⟨false, false⟩ .void => true   -- is_void<void>
  | .builtin ⟨true, false⟩ .void => true    -- is_void<void const>
  | .builtin ⟨false, true⟩ .void => true    -- is_void<void volatile>
  | .builtin ⟨true, true⟩ .void => true     -- is_void<void const volatile>
  | _ => false                              -- template <typename T> struct is_void

/-! ## `has_void_arg` (lines 46-68) -/

/-- The variadic `has_void_arg<Args...>::value` (the branch taken when
`EA_COMPILER_NO_VARIADIC_TEMPLATES` is not defined). -/
def has_void_arg : List Ty → Bool
  | [] => false                                      -- has_void_arg<>
  | A0 :: Args => is_void A0 || has_void_arg Args    -- has_void_arg<A0, Args...>

/-- The six-parameter `has_void_arg<A0, A1, A2, A3, A4, A5>::value` (the branch
taken when `EA_COMPILER_NO_VARIADIC_TEMPLATES` is defined); `A1` to `A5`
default to `int`. -/
def has_void_arg_fixed (A0 : Ty) (A1 : Ty := Ty.prim Builtin.int)
    (A2 : Ty := Ty.prim Builtin.int) (A3 : Ty := Ty.prim Builtin.int)
    (A4 : Ty := Ty.prim Builtin.int) (A5 : Ty := Ty.prim Builtin.int) : Bool :=
  is_void A0 || is_void A1 || is_void A2 || is_void A3 || is_void A4 || is_void A5

/-! ## `is_null_pointer` (lines 82-92) -/

/-- The trait `is_null_pointer<T>::value`, in either branch of line 82. -/
def is_null_pointer (cfg : Config) (T : Ty) : Bool :=
  if cfg.cpp11_decltype then
    is_same (remove_cv T) decltype_nullptr
  else
    is_same (remove_cv T) std_nullptr_t

/-! ## `is_integral` (lines 118-147) -/

/-- The table `is_integral_helper<T>::value`: primary template `false_type` and
twelve or thirteen explicit specialisations, all of unqualified types. -/
def is_integral_helper (cfg : Config) : Ty → Bool
  | .builtin ⟨false, false⟩ .unsigned_char => true
  | .builtin ⟨false, false⟩ .unsigned_short => true
  | .builtin ⟨false, false⟩ .unsigned_int => true
  | .builtin ⟨false, false⟩ .unsigned_long => true
  | .builtin ⟨false, false⟩ .unsigned_long_long => true
  | .builtin ⟨false, false⟩ .signed_char => true
  | .builtin ⟨false, false⟩ .short => true        -- signed short
  | .builtin ⟨false, false⟩ .int => true          -- signed int
  | .builtin ⟨false, false⟩ .long => true         -- signed long
  | .builtin ⟨false, false⟩ .long_long => true    -- signed long long
  | .builtin ⟨false, false⟩ .bool => true
  | .builtin ⟨false, false⟩ .char => true
  | .builtin ⟨false, false⟩ .wchar_t => !cfg.EA_WCHAR_T_NON_NATIVE  -- #ifndef EA_WCHAR_T_NON_NATIVE
  | _ => false

/-- The explicit specialisations of the public traits `is_integral` and
`is_floating_point` that client code has declared so far, one entry per
specialised type. -/
structure Specializations where
  is_integral : List Ty
  is_floating_point : List Ty
  deriving DecidableEq, Repr

/-- The header alone: no client specialisation. -/
def Specializations.empty : Specializations := ⟨[], []⟩

/-- The trait `is_integral<T>::value`.  An explicit specialisation for exactly
`T` is `true_type`; otherwise the primary template of line 139 looks
`remove_cv<T>::type` up in the helper table. -/
def is_integral (cfg : Config) (s : Specializations) (T : Ty) : Bool :=
  if T ∈ s.is_integral then true else is_integral_helper cfg (remove_cv T)

/-- The four types a registration macro specialises a trait for, in the
macro's order: `T`, `const T`, `volatile T`, `const volatile T`. -/
def cv_rows (T : Ty) : List Ty := [T, T.const, T.volatile, T.const_volatile]

/-- The macro `EASTL_DECLARE_INTEGRAL(T)`: four explicit specialisations of
`is_integral`, for the types of `cv_rows T`.  The argument is a type name (an
identifier or typedef name), so that `const T` qualifies the type it names; an
argument spelled with a declarator, such as `int*`, for which the pasted
`const T` qualifies the pointee, is outside this model.  C++ rejects the
translation unit when a template is explicitly specialised twice for the same
type, which happens when two of the four types coincide or one of them is
specialised already; that is `none`.  The macro checks nothing else; in
particular it does not consult `is_integral_helper`.

The record stands for a translation unit made of the header followed by
registrations only.  C++ also rejects an explicit specialisation that comes
after a use (an implicit instantiation) of the same trait for the same type; a
record has no trace of uses, so `some` is the answer of the compiler only when
no such use precedes the macro. -/
def EASTL_DECLARE_INTEGRAL (s : Specializations) (T : Ty) : Option Specializations :=
  if (cv_rows T).Nodup ∧ ∀ R ∈ cv_rows T, R ∉ s.is_integral then
    some { s with is_integral := s.is_integral ++ cv_rows T }
  else
    none

/-! ## `is_floating_point` (lines 163-178) -/

/-- The table `is_floating_point_helper<T>::value`. -/
def is_floating_point_helper : Ty → Bool
  | .builtin ⟨false, false⟩ .float => true
  | .builtin ⟨false, false⟩ .double => true
  | .builtin ⟨false, false⟩ .long_double => true
  | _ => false

/-- The trait `is_floating_point<T>::value`, with the client's explicit
specialisations before the primary template of line 170. -/
def is_floating_point (s : Specializations) (T : Ty) : Bool :=
  if T ∈ s.is_floating_point then true else is_floating_point_helper (remove_cv T)

/-- The macro `EASTL_DECLARE_FLOATING_POINT(T)` for a type name `T`; see
`EASTL_DECLARE_INTEGRAL`, also for the translation units a record stands for:
`some` is the answer of the compiler only when no use of `is_floating_point`,
`is_arithmetic` or `is_fundamental` for one of the four types precedes the
macro. -/
def EASTL_DECLARE_FLOATING_POINT (s : Specializations) (T : Ty) : Option Specializations :=
  if (cv_rows T).Nodup ∧ ∀ R ∈ cv_rows T, R ∉ s.is_floating_point then
    some { s with is_floating_point := s.is_floating_point ++ cv_rows T }
  else
    none

/-! ## `is_arithmetic` and `is_fundamental` (lines 193-215) -/

/-- The trait `is_arithmetic<T>::value`. -/
def is_arithmetic (cfg : Config) (s : Specializations) (T : Ty) : Bool :=
  is_integral cfg s T || is_floating_point s T

/-- The trait `is_fundamental<T>::value`. -/
def is_fundamental (cfg : Config) (s : Specializations) (T : Ty) : Bool :=
  is_void T || is_integral cfg s T || is_floating_point s T || is_null_pointer cfg T

/-! ## Sequences of registrations -/

/-- One use of a registration macro in client code. -/
inductive Registration
  | integral (T : Ty)
  | floating_point (T : Ty)
  deriving DecidableEq, Repr

/-- Expand one registration. -/
def declare (s : Specializations) : Registration → Option Specializations
  | .integral T => EASTL_DECLARE_INTEGRAL s T
  | .floating_point T => EASTL_DECLARE_FLOATING_POINT s T

/-- Expand a sequence of registrations in source order; `none` as soon as one
is rejected. -/
def declare_all (s : Specializations) : List Registration → Option Specializations
  | [] => some s
  | r :: rs => (declare s r).bind fun t => declare_all t rs

/-- The specialisation records a translation unit can reach: the header
followed by accepted registrations. -/
def Reachable (s : Specializations) : Prop :=
  ∃ rs, declare_all Specializations.empty rs = some s

/-! ## The thirteen integral and three floating-point types -/

/-- The unqualified types listed in the comment of lines 99-112. -/
def integral_types : List Ty :=
  [Ty.prim .bool, Ty.prim .char, Ty.prim .signed_char, Ty.prim .unsigned_char,
   Ty.prim .wchar_t, Ty.prim .short, Ty.prim .int, Ty.prim .long, Ty.prim .long_long,
   Ty.prim .unsigned_short, Ty.prim .unsigned_int, Ty.prim .unsigned_long,
   Ty.prim .unsigned_long_long]

/-- The unqualified types listed in the comment of lines 154-157. -/
def floating_point_types : List Ty :=
  [Ty.prim .float, Ty.prim .double, Ty.prim .long_double]

/-! ## Auxiliary notions for the proofs -/

/-- `T` is an object type without top-level qualifier (for an array: its
elements are).  These are the types whose four `cv_rows` are distinct. -/
def Ty.unqualified : Ty → Bool
  | .builtin q _ => decide (q = CV.none)
  | .class_type q _ => decide (q = CV.none)
  | .enum_type q _ => decide (q = CV.none)
  | .pointer q _ => decide (q = CV.none)
  | .lvalue_ref _ => false
  | .rvalue_ref _ => false
  | .array e _ => Ty.unqualified e

/-- Membership in `l` depends only on the unqualified type. -/
def cv_stable (l : List Ty) : Prop := ∀ T, T ∈ l ↔ remove_cv T ∈ l

/-- Both lists of a record are `cv_stable`. -/
def Specializations.stable (s : Specializations) : Prop :=
  cv_stable s.is_integral ∧ cv_stable s.is_floating_point

/-- A record reached by registering class number 0 as integral. -/
def example_registered : Specializations :=
  ⟨cv_rows (Ty.class_type CV.none 0), []⟩

/-! ## Template-ids of the six-parameter `has_void_arg` -/

/-- The template-id `has_void_arg<Ts...>` against the six-parameter template of
line 48.  The arguments bind `A0`, `A1`, ... in order and the parameters left
over take their default `int`.  `A0` has no default, and a template-id with
more arguments than the template has parameters is ill-formed: both are
`none`. -/
def has_void_arg_fixed_instantiate : List Ty → Option Bool
  | [A0] => some (has_void_arg_fixed A0)
  | [A0, A1] => some (has_void_arg_fixed A0 A1)
  | [A0, A1, A2] => some (has_void_arg_fixed A0 A1 A2)
  | [A0, A1, A2, A3] => some (has_void_arg_fixed A0 A1 A2 A3)
  | [A0, A1, A2, A3, A4] => some (has_void_arg_fixed A0 A1 A2 A3 A4)
  | [A0, A1, A2, A3, A4, A5] => some (has_void_arg_fixed A0 A1 A2 A3 A4 A5)
  | _ => none

/-! ## The classes behind the traits

The functions above give `X<T>::value`.  The definitions of this section give
the class `X<T>` itself, as far as the header's declaration shows it: its base
class when it has one, or its only member. -/

/-- Modelled from the spec: `eastl::integral_constant<bool, v>`, the Boolean
Constant wrapper, which this header uses but does not define: "a type-level
value of true or false". -/
structure integral_constant where
  value : Bool
  deriving DecidableEq, Repr

/-- Modelled from the spec: `eastl::true_type`, the true Boolean Constant. -/
def true_type : integral_constant := ⟨true⟩

/-- Modelled from the spec: `eastl::false_type`, the false Boolean Constant. -/
def false_type : integral_constant := ⟨false⟩

/-- A trait class as the header declares it. -/
inductive TraitClass
  /-- `struct X : public B {}` with `B` a Boolean Constant, or a class that
  derives from one -/
  | derives (base : integral_constant)
  /-- `struct X { static const bool value = v; }`, without base class -/
  | static_member (v : Bool)
  deriving DecidableEq, Repr

/-- The member `X::value`, inherited or declared. -/
def TraitClass.value : TraitClass → Bool
  | .derives base => base.value
  | .static_member v => v

/-- The Boolean Constant the class is (converts to), when it has one as a base. -/
def TraitClass.boolean_constant : TraitClass → Option integral_constant
  | .derives base => some base
  | .static_member _ => none

/-- The class `is_void<T>` (lines 31-36). -/
def is_void_struct : Ty → TraitClass
  | .builtin ⟨false, false⟩ .void => .derives true_type
  | .builtin ⟨true, false⟩ .void => .derives true_type
  | .builtin ⟨false, true⟩ .void => .derives true_type
  | .builtin ⟨true, true⟩ .void => .derives true_type
  | _ => .derives false_type

/-- The class `has_void_arg<Args...>` of the variadic branch (lines 58-67). -/
def has_void_arg_struct : List Ty → TraitClass
  | [] => .derives false_type
  | A0 :: Args => .static_member ((is_void_struct A0).value || (has_void_arg_struct Args).value)

/-- The class `has_void_arg<A0, ..., A5>` of the six-parameter branch (lines 48-56). -/
def has_void_arg_fixed_struct (A0 : Ty) (A1 : Ty := Ty.prim Builtin.int)
    (A2 : Ty := Ty.prim Builtin.int) (A3 : Ty := Ty.prim Builtin.int)
    (A4 : Ty := Ty.prim Builtin.int) (A5 : Ty := Ty.prim Builtin.int) : TraitClass :=
  .static_member ((is_void_struct A0).value || (is_void_struct A1).value
    || (is_void_struct A2).value || (is_void_struct A3).value
    || (is_void_struct A4).value || (is_void_struct A5).value)

/-- Modelled from the spec: the class `eastl::is_same<T, U>`, which this
header uses but does not define; a Boolean Constant like every predicate. -/
def is_same_struct (T U : Ty) : TraitClass :=
  if T = U then .derives true_type else .derives false_type

/-- The class `is_null_pointer<T>` (lines 85-91), derived from `is_same`. -/
def is_null_pointer_struct (cfg : Config) (T : Ty) : TraitClass :=
  if cfg.cpp11_decltype then
    is_same_struct (remove_cv T) decltype_nullptr
  else
    is_same_struct (remove_cv T) std_nullptr_t

/-- The class `is_integral_helper<T>` (lines 118-136). -/
def is_integral_helper_struct (cfg : Config) : Ty → TraitClass
  | .builtin ⟨false, false⟩ .unsigned_char => .derives true_type
  | .builtin ⟨false, false⟩ .unsigned_short => .derives true_type
  | .builtin ⟨false, false⟩ .unsigned_int => .derives true_type
  | .builtin ⟨false, false⟩ .unsigned_long => .derives true_type
  | .builtin ⟨false, false⟩ .unsigned_long_long => .derives true_type
  | .builtin ⟨false, false⟩ .signed_char => .derives true_type
  | .builtin ⟨false, false⟩ .short => .derives true_type
  | .builtin ⟨false, false⟩ .int => .derives true_type
  | .builtin ⟨false, false⟩ .long => .derives true_type
  | .builtin ⟨false, false⟩ .long_long => .derives true_type
  | .builtin ⟨false, false⟩ .bool => .derives true_type
  | .builtin ⟨false, false⟩ .char => .derives true_type
  | .builtin ⟨false, false⟩ .wchar_t =>
      if cfg.EA_WCHAR_T_NON_NATIVE then .derives false_type else .derives true_type
  | _ => .derives false_type

/-- The class `is_integral<T>`: a client specialisation (lines 143-146) or the
primary template of line 139, derived from `is_integral_helper`. -/
def is_integral_struct (cfg : Config) (s : Specializations) (T : Ty) : TraitClass :=
  if T ∈ s.is_integral then .derives true_type
  else is_integral_helper_struct cfg (remove_cv T)

/-- The class `is_floating_point_helper<T>` (lines 163-167). -/
def is_floating_point_helper_struct : Ty → TraitClass
  | .builtin ⟨false, false⟩ .float => .derives true_type
  | .builtin ⟨false, false⟩ .double => .derives true_type
  | .builtin ⟨false, false⟩ .long_double => .derives true_type
  | _ => .derives false_type

/-- The class `is_floating_point<T>`: a client specialisation (lines 174-177)
or the primary template of line 170. -/
def is_floating_point_struct (s : Specializations) (T : Ty) : TraitClass :=
  if T ∈ s.is_floating_point then .derives true_type
  else is_floating_point_helper_struct (remove_cv T)

/-- The class `is_arithmetic<T>` (lines 193-196). -/
def is_arithmetic_struct (cfg : Config) (s : Specializations) (T : Ty) : TraitClass :=
  .derives ⟨(is_integral_struct cfg s T).value || (is_floating_point_struct s T).value⟩

/-- The class `is_fundamental<T>` (lines 212-215). -/
def is_fundamental_struct (cfg : Config) (s : Specializations) (T : Ty) : TraitClass :=
  .derives ⟨(is_void_struct T).value || (is_integral_struct cfg s T).value
    || (is_floating_point_struct s T).value || (is_null_pointer_struct cfg T).value⟩

/-! ## `is_void` by normalisation -/

/-- The reading of `is_void` with one table entry and the normaliser:
`remove_cv<T>::type` is exactly `void`. -/
def is_void_by_normalisation (T : Ty) : Bool :=
  is_same (remove_cv T) (Ty.prim Builtin.void)

/-! ## Basic facts about qualification -/

theorem remove_cv_add_cv (q : CV) (T : Ty) : remove_cv (Ty.add_cv q T) = remove_cv T := by
  induction T with
  | array e n ih => simp [Ty.add_cv, remove_cv, ih]
  | _ => simp [Ty.add_cv, remove_cv]

theorem is_integral_helper_iff (cfg : Config) (h : cfg.EA_WCHAR_T_NON_NATIVE = false) (U : Ty) :
    is_integral_helper cfg U = true ↔ U ∈ integral_types := by
  cases U with
  | builtin q b =>
    obtain ⟨c, v⟩ := q
    cases c <;> cases v <;> cases b <;>
      simp [is_integral_helper, integral_types, Ty.prim, CV.none, h]
  | _ => simp [is_integral_helper, integral_types, Ty.prim]

theorem is_floating_point_helper_iff (U : Ty) :
    is_floating_point_helper U = true ↔ U ∈ floating_point_types := by
  cases U with
  | builtin q b =>
    obtain ⟨c, v⟩ := q
    cases c <;> cases v <;> cases b <;>
      simp [is_floating_point_helper, floating_point_types, Ty.prim, CV.none]
  | _ => simp [is_floating_point_helper, floating_point_types, Ty.prim]

theorem is_void_iff_mem_cv_rows (T : Ty) : is_void T = true ↔ T ∈ cv_rows (Ty.prim .void) := by
  cases T with
  | builtin q b =>
    obtain ⟨c, v⟩ := q
    cases c <;> cases v <;> cases b <;>
      simp [is_void, cv_rows, Ty.prim, Ty.const, Ty.volatile, Ty.const_volatile, Ty.add_cv,
        CV.none, CV.const, CV.volatile, CV.const_volatile, CV.union]
  | _ =>
    simp [is_void, cv_rows, Ty.prim, Ty.const, Ty.volatile, Ty.const_volatile, Ty.add_cv]

theorem cv_rows_array (e : Ty) (n : Option Nat) :
    cv_rows (Ty.array e n) = (cv_rows e).map (fun t => Ty.array t n) := by
  simp [cv_rows, Ty.const, Ty.volatile, Ty.const_volatile, Ty.add_cv]

theorem array_injective (n : Option Nat) : Function.Injective (fun t : Ty => Ty.array t n) := by
  intro a b h
  simpa using h

theorem cv_rows_nodup_iff (X : Ty) : (cv_rows X).Nodup ↔ X.unqualified = true := by
  induction X with
  | array e n ih =>
    rw [cv_rows_array, List.nodup_map_iff (array_injective n), ih]
    simp [Ty.unqualified]
  | builtin q b =>
    obtain ⟨c, v⟩ := q
    cases c <;> cases v <;>
      simp [cv_rows, Ty.const, Ty.volatile, Ty.const_volatile, Ty.add_cv, Ty.unqualified,
        CV.none, CV.const, CV.volatile, CV.const_volatile, CV.union]
  | class_type q b =>
    obtain ⟨c, v⟩ := q
    cases c <;> cases v <;>
      simp [cv_rows, Ty.const, Ty.volatile, Ty.const_volatile, Ty.add_cv, Ty.unqualified,
        CV.none, CV.const, CV.volatile, CV.const_volatile, CV.union]
  | enum_type q b =>
    obtain ⟨c, v⟩ := q
    cases c <;> cases v <;>
      simp [cv_rows, Ty.const, Ty.volatile, Ty.const_volatile, Ty.add_cv, Ty.unqualified,
        CV.none, CV.const, CV.volatile, CV.const_volatile, CV.union]
  | pointer q b =>
    obtain ⟨c, v⟩ := q
    cases c <;> cases v <;>
      simp [cv_rows, Ty.const, Ty.volatile, Ty.const_volatile, Ty.add_cv, Ty.unqualified,
        CV.none, CV.const, CV.volatile, CV.const_volatile, CV.union]
  | _ =>
    simp [cv_rows, Ty.const, Ty.volatile, Ty.const_volatile, Ty.add_cv, Ty.unqualified]

theorem mem_cv_rows_iff (X : Ty) (hX : X.unqualified = true) (T : Ty) :
    T ∈ cv_rows X ↔ remove_cv T = X := by
  induction X generalizing T with
  | array e n ih =>
    rw [cv_rows_array]
    simp only [Ty.unqualified] at hX
    cases T with
    | array t m =>
      simp only [List.mem_map, remove_cv, Ty.array.injEq]
      constructor
      · rintro ⟨a, ha, rfl, rfl⟩
        exact ⟨(ih hX a).1 ha, rfl⟩
      · rintro ⟨h1, rfl⟩
        exact ⟨t, (ih hX t).2 h1, rfl, rfl⟩
    | _ => simp [remove_cv]
  | builtin q b =>
    obtain ⟨c, v⟩ := q
    simp [Ty.unqualified, CV.none] at hX
    obtain ⟨rfl, rfl⟩ := hX
    cases T with
    | builtin p a =>
      obtain ⟨c, v⟩ := p
      cases c <;> cases v <;>
      simp [cv_rows, Ty.const, Ty.volatile, Ty.const_volatile, Ty.add_cv, remove_cv,
        CV.none, CV.const, CV.volatile, CV.const_volatile, CV.union]
    | _ => simp [cv_rows, Ty.const, Ty.volatile, Ty.const_volatile, Ty.add_cv, remove_cv]
  | class_type q b =>
    obtain ⟨c, v⟩ := q
    simp [Ty.unqualified, CV.none] at hX
    obtain ⟨rfl, rfl⟩ := hX
    cases T with
    | class_type p a =>
      obtain ⟨c, v⟩ := p
      cases c <;> cases v <;>
      simp [cv_rows, Ty.const, Ty.volatile, Ty.const_volatile, Ty.add_cv, remove_cv,
        CV.none, CV.const, CV.volatile, CV.const_volatile, CV.union]
    | _ => simp [cv_rows, Ty.const, Ty.volatile, Ty.const_volatile, Ty.add_cv, remove_cv]
  | enum_type q b =>
    obtain ⟨c, v⟩ := q
    simp [Ty.unqualified, CV.none] at hX
    obtain ⟨rfl, rfl⟩ := hX
    cases T with
    | enum_type p a =>
      obtain ⟨c, v⟩ := p
      cases c <;> cases v <;>
      simp [cv_rows, Ty.const, Ty.volatile, Ty.const_volatile, Ty.add_cv, remove_cv,
        CV.none, CV.const, CV.volatile, CV.const_volatile, CV.union]
    | _ => simp [cv_rows, Ty.const, Ty.volatile, Ty.const_volatile, Ty.add_cv, remove_cv]
  | pointer q b =>
    obtain ⟨c, v⟩ := q
    simp [Ty.unqualified, CV.none] at hX
    obtain ⟨rfl, rfl⟩ := hX
    cases T with
    | pointer p a =>
      obtain ⟨c, v⟩ := p
      cases c <;> cases v <;>
      simp [cv_rows, Ty.const, Ty.volatile, Ty.const_volatile, Ty.add_cv, remove_cv,
        CV.none, CV.const, CV.volatile, CV.const_volatile, CV.union]
    | _ => simp [cv_rows, Ty.const, Ty.volatile, Ty.const_volatile, Ty.add_cv, remove_cv]
  | _ => simp [Ty.unqualified] at hX

theorem remove_cv_idem (T : Ty) : remove_cv (remove_cv T) = remove_cv T := by
  induction T with
  | array e n ih => simp [remove_cv, ih]
  | _ => simp [remove_cv]

/-! ## Registration keeps the specialisation lists closed under qualification -/

theorem cv_stable_nil : cv_stable [] := by
  intro T; simp

theorem cv_stable_rows (X : Ty) (hX : (cv_rows X).Nodup) : cv_stable (cv_rows X) := by
  intro T
  have hu := (cv_rows_nodup_iff X).1 hX
  rw [mem_cv_rows_iff X hu, mem_cv_rows_iff X hu, remove_cv_idem]

theorem cv_stable_append {l m : List Ty} (hl : cv_stable l) (hm : cv_stable m) :
    cv_stable (l ++ m) := by
  intro T
  simp only [List.mem_append]
  rw [hl T, hm T]

theorem declare_integral_eq_some {s t : Specializations} {X : Ty}
    (h : EASTL_DECLARE_INTEGRAL s X = some t) :
    (cv_rows X).Nodup ∧ (∀ R ∈ cv_rows X, R ∉ s.is_integral)
      ∧ t.is_integral = s.is_integral ++ cv_rows X
      ∧ t.is_floating_point = s.is_floating_point := by
  unfold EASTL_DECLARE_INTEGRAL at h
  split at h
  · rename_i hc
    simp only [Option.some.injEq] at h
    subst h
    exact ⟨hc.1, hc.2, rfl, rfl⟩
  · simp at h

theorem declare_floating_point_eq_some {s t : Specializations} {X : Ty}
    (h : EASTL_DECLARE_FLOATING_POINT s X = some t) :
    (cv_rows X).Nodup ∧ (∀ R ∈ cv_rows X, R ∉ s.is_floating_point)
      ∧ t.is_floating_point = s.is_floating_point ++ cv_rows X
      ∧ t.is_integral = s.is_integral := by
  unfold EASTL_DECLARE_FLOATING_POINT at h
  split at h
  · rename_i hc
    simp only [Option.some.injEq] at h
    subst h
    exact ⟨hc.1, hc.2, rfl, rfl⟩
  · simp at h

theorem declare_stable {s t : Specializations} {r : Registration}
    (hs : s.stable) (h : declare s r = some t) : t.stable := by
  cases r with
  | integral X =>
    obtain ⟨hn, -, hi, hf⟩ := declare_integral_eq_some h
    refine ⟨?_, ?_⟩
    · rw [hi]; exact cv_stable_append hs.1 (cv_stable_rows X hn)
    · rw [hf]; exact hs.2
  | floating_point X =>
    obtain ⟨hn, -, hf, hi⟩ := declare_floating_point_eq_some h
    refine ⟨?_, ?_⟩
    · rw [hi]; exact hs.1
    · rw [hf]; exact cv_stable_append hs.2 (cv_stable_rows X hn)

theorem declare_all_stable (rs : List Registration) {s t : Specializations}
    (hs : s.stable) (h : declare_all s rs = some t) : t.stable := by
  induction rs generalizing s with
  | nil =>
    simp only [declare_all, Option.some.injEq] at h
    subst h; exact hs
  | cons r rs ih =>
    simp only [declare_all] at h
    cases hd : declare s r with
    | none => simp [hd] at h
    | some u =>
      simp only [hd, Option.some_bind] at h
      exact ih (declare_stable hs hd) h

theorem reachable_stable {s : Specializations} (hs : Reachable s) : s.stable := by
  obtain ⟨rs, h⟩ := hs
  exact declare_all_stable rs ⟨cv_stable_nil, cv_stable_nil⟩ h

theorem is_integral_remove_cv (cfg : Config) {s : Specializations} (hs : s.stable) (T : Ty) :
    is_integral cfg s (remove_cv T) = is_integral cfg s T := by
  unfold is_integral
  rw [remove_cv_idem]
  by_cases h : T ∈ s.is_integral
  · simp [h, (hs.1 T).1 h]
  · have h2 : remove_cv T ∉ s.is_integral := fun hh => h ((hs.1 T).2 hh)
    simp [h, h2]

theorem is_floating_point_remove_cv {s : Specializations} (hs : s.stable) (T : Ty) :
    is_floating_point s (remove_cv T) = is_floating_point s T := by
  unfold is_floating_point
  rw [remove_cv_idem]
  by_cases h : T ∈ s.is_floating_point
  · simp [h, (hs.2 T).1 h]
  · have h2 : remove_cv T ∉ s.is_floating_point := fun hh => h ((hs.2 T).2 hh)
    simp [h, h2]

theorem is_integral_add_cv (cfg : Config) {s : Specializations} (hs : s.stable) (q : CV)
    (T : Ty) : is_integral cfg s (Ty.add_cv q T) = is_integral cfg s T := by
  rw [← is_integral_remove_cv cfg hs (Ty.add_cv q T), remove_cv_add_cv,
    is_integral_remove_cv cfg hs]

theorem is_floating_point_add_cv {s : Specializations} (hs : s.stable) (q : CV)
    (T : Ty) : is_floating_point s (Ty.add_cv q T) = is_floating_point s T := by
  rw [← is_floating_point_remove_cv hs (Ty.add_cv q T), remove_cv_add_cv,
    is_floating_point_remove_cv hs]

theorem mem_of_row_mem {l : List Ty} (hl : cv_stable l) {X R : Ty}
    (hX : X.unqualified = true) (hR : R ∈ cv_rows X) (hm : R ∈ l) : X ∈ l := by
  have h1 := (mem_cv_rows_iff X hX R).1 hR
  have h2 := (hl R).1 hm
  rwa [h1] at h2

theorem self_mem_cv_rows (X : Ty) : X ∈ cv_rows X := by
  simp [cv_rows]

theorem declare_integral_eq_none_iff (s : Specializations) (X : Ty) :
    EASTL_DECLARE_INTEGRAL s X = none ↔
      X.unqualified = false ∨ ∃ R ∈ cv_rows X, R ∈ s.is_integral := by
  unfold EASTL_DECLARE_INTEGRAL
  have hn := cv_rows_nodup_iff X
  constructor
  · intro h
    by_contra hc
    push_neg at hc
    rw [if_pos ⟨hn.2 (by simpa using hc.1), fun R h1 h2 => hc.2 R h1 h2⟩] at h
    exact Option.noConfusion h
  · intro h
    rw [if_neg]
    rintro ⟨h1, h2⟩
    rcases h with h | ⟨R, hR, hm⟩
    · rw [hn.1 h1] at h
      exact Bool.noConfusion h
    · exact h2 R hR hm

theorem declare_floating_point_eq_none_iff (s : Specializations) (X : Ty) :
    EASTL_DECLARE_FLOATING_POINT s X = none ↔
      X.unqualified = false ∨ ∃ R ∈ cv_rows X, R ∈ s.is_floating_point := by
  unfold EASTL_DECLARE_FLOATING_POINT
  have hn := cv_rows_nodup_iff X
  constructor
  · intro h
    by_contra hc
    push_neg at hc
    rw [if_pos ⟨hn.2 (by simpa using hc.1), fun R h1 h2 => hc.2 R h1 h2⟩] at h
    exact Option.noConfusion h
  · intro h
    rw [if_neg]
    rintro ⟨h1, h2⟩
    rcases h with h | ⟨R, hR, hm⟩
    · rw [hn.1 h1] at h
      exact Bool.noConfusion h
    · exact h2 R hR hm

theorem declare_integral_eq_none {s : Specializations} (hs : Reachable s) (X : Ty) :
    EASTL_DECLARE_INTEGRAL s X = none ↔ X.unqualified = false ∨ X ∈ s.is_integral := by
  rw [declare_integral_eq_none_iff]
  constructor
  · rintro (h | ⟨R, h1, h2⟩)
    · exact Or.inl h
    · by_cases hu : X.unqualified = true
      · exact Or.inr (mem_of_row_mem (reachable_stable hs).1 hu h1 h2)
      · left; simpa using hu
  · rintro (h | h)
    · exact Or.inl h
    · exact Or.inr ⟨X, self_mem_cv_rows X, h⟩

theorem declare_floating_point_eq_none {s : Specializations} (hs : Reachable s) (X : Ty) :
    EASTL_DECLARE_FLOATING_POINT s X = none ↔
      X.unqualified = false ∨ X ∈ s.is_floating_point := by
  rw [declare_floating_point_eq_none_iff]
  constructor
  · rintro (h | ⟨R, h1, h2⟩)
    · exact Or.inl h
    · by_cases hu : X.unqualified = true
      · exact Or.inr (mem_of_row_mem (reachable_stable hs).2 hu h1 h2)
      · left; simpa using hu
  · rintro (h | h)
    · exact Or.inl h
    · exact Or.inr ⟨X, self_mem_cv_rows X, h⟩

theorem primitive_unqualified (X : Ty) (hX : X ∈ integral_types ++ floating_point_types) :
    X.unqualified = true := by
  simp only [integral_types, floating_point_types, List.mem_append, List.mem_cons,
    List.mem_singleton, List.not_mem_nil, or_false] at hX
  rcases hX with (h | h | h | h | h | h | h | h | h | h | h | h | h) | (h | h | h) <;>
    (subst h; rfl)

theorem example_registered_eq :
    EASTL_DECLARE_INTEGRAL Specializations.empty (Ty.class_type CV.none 0)
      = some example_registered := by
  simp [EASTL_DECLARE_INTEGRAL, Specializations.empty, example_registered, cv_rows_nodup_iff,
    Ty.unqualified]

theorem example_registered_reachable : Reachable example_registered :=
  ⟨[Registration.integral (Ty.class_type CV.none 0)], by
    simp [declare_all, declare, example_registered_eq]⟩

theorem remove_cv_eq_self (T : Ty) (h : T.unqualified = true) : remove_cv T = T := by
  induction T with
  | array e n ih =>
    simp only [Ty.unqualified] at h
    simp [remove_cv, ih h]
  | builtin q b => simp [Ty.unqualified] at h; simp [remove_cv, h]
  | class_type q n => simp [Ty.unqualified] at h; simp [remove_cv, h]
  | enum_type q n => simp [Ty.unqualified] at h; simp [remove_cv, h]
  | pointer q t _ => simp [Ty.unqualified] at h; simp [remove_cv, h]
  | lvalue_ref t _ => simp [Ty.unqualified] at h
  | rvalue_ref t _ => simp [Ty.unqualified] at h

theorem declare_integral_frame (cfg : Config) {s t : Specializations} {X : Ty}
    (h : EASTL_DECLARE_INTEGRAL s X = some t) (T : Ty) :
    is_integral cfg t T = (decide (T ∈ cv_rows X) || is_integral cfg s T)
    ∧ is_floating_point t T = is_floating_point s T := by
  obtain ⟨-, -, hi, hf⟩ := declare_integral_eq_some h
  refine ⟨?_, ?_⟩
  · unfold is_integral
    rw [hi]
    by_cases h1 : T ∈ s.is_integral <;> by_cases h2 : T ∈ cv_rows X <;> simp [h1, h2]
  · unfold is_floating_point
    rw [hf]

theorem declare_floating_point_frame (cfg : Config) {s t : Specializations} {X : Ty}
    (h : EASTL_DECLARE_FLOATING_POINT s X = some t) (T : Ty) :
    is_floating_point t T = (decide (T ∈ cv_rows X) || is_floating_point s T)
    ∧ is_integral cfg t T = is_integral cfg s T := by
  obtain ⟨-, -, hf, hi⟩ := declare_floating_point_eq_some h
  refine ⟨?_, ?_⟩
  · unfold is_floating_point
    rw [hf]
    by_cases h1 : T ∈ s.is_floating_point <;> by_cases h2 : T ∈ cv_rows X <;> simp [h1, h2]
  · unfold is_integral
    rw [hi]

theorem helper_entry_unqualified (cfg : Config) (X : Ty)
    (hX : is_integral_helper cfg X = true ∨ is_floating_point_helper X = true) :
    X.unqualified = true := by
  cases X with
  | builtin q b =>
    obtain ⟨c, v⟩ := q
    cases c <;> cases v <;>
      simp_all [is_integral_helper, is_floating_point_helper, Ty.unqualified, CV.none]
  | _ => simp [is_integral_helper, is_floating_point_helper] at hX

/-! ## The claims -/

/-- C1: `is_void<T>::value` is true exactly for `void`, `const void`,
`volatile void` and `const volatile void`; it is false for `int` and for every
pointer type, `void*` among them. -/
theorem is_void_exactly_cv_void :
    (∀ T : Ty, is_void T = true ↔
      T = Ty.prim .void ∨ T = (Ty.prim .void).const ∨ T = (Ty.prim .void).volatile
        ∨ T = (Ty.prim .void).const_volatile)
    ∧ is_void (Ty.prim .int) = false
    ∧ (∀ (q : CV) (P : Ty), is_void (Ty.pointer q P) = false)
    ∧ is_void (Ty.ptr (Ty.prim .void)) = false := by
  refine ⟨?_, rfl, fun _ _ => rfl, rfl⟩
  intro T
  cases T with
  | builtin q b =>
    obtain ⟨c, v⟩ := q
    cases c <;> cases v <;> cases b <;>
      simp [is_void, Ty.prim, Ty.const, Ty.volatile, Ty.const_volatile, Ty.add_cv, CV.none,
        CV.const, CV.volatile, CV.const_volatile, CV.union]
  | _ =>
    simp [is_void, Ty.prim, Ty.const, Ty.volatile, Ty.const_volatile, Ty.add_cv]

/-- C2: with no registration and a native `wchar_t`, `is_integral<T>::value` is
true exactly when `remove_cv<T>::type` is one of the thirteen listed types;
`float`, pointers, class types, enumerations and `char16_t` give false. -/
theorem is_integral_exactly_listed (cfg : Config) (hw : cfg.EA_WCHAR_T_NON_NATIVE = false) :
    (∀ T : Ty, is_integral cfg Specializations.empty T = true ↔ remove_cv T ∈ integral_types)
    ∧ is_integral cfg Specializations.empty (Ty.prim .float) = false
    ∧ (∀ (q : CV) (P : Ty), is_integral cfg Specializations.empty (Ty.pointer q P) = false)
    ∧ (∀ (q : CV) (n : Nat), is_integral cfg Specializations.empty (Ty.class_type q n) = false)
    ∧ (∀ (q : CV) (n : Nat), is_integral cfg Specializations.empty (Ty.enum_type q n) = false)
    ∧ (∀ q : CV, is_integral cfg Specializations.empty (Ty.builtin q .char16_t) = false) := by
  refine ⟨fun T => ?_, ?_, ?_, ?_, ?_, ?_⟩
  · simp [is_integral, Specializations.empty, is_integral_helper_iff cfg hw]
  all_goals
    intros
    simp [is_integral, Specializations.empty, remove_cv, is_integral_helper, Ty.prim, CV.none]

/-- Witness of C2 in the standard configuration. -/
theorem is_integral_exactly_listed_witness :
    Config.standard.EA_WCHAR_T_NON_NATIVE = false
    ∧ (is_integral Config.standard Specializations.empty (Ty.prim .int).const = true ↔
        remove_cv (Ty.prim .int).const ∈ integral_types) :=
  ⟨rfl, (is_integral_exactly_listed Config.standard rfl).1 _⟩

/-- C3: with no registration, `is_floating_point<T>::value` is true exactly
when `remove_cv<T>::type` is `float`, `double` or `long double`. -/
theorem is_floating_point_exactly_listed (T : Ty) :
    is_floating_point Specializations.empty T = true ↔ remove_cv T ∈ floating_point_types := by
  simp [is_floating_point, Specializations.empty, is_floating_point_helper_iff]

/-- C4: for every record of registrations, `is_arithmetic<T>::value` is
`is_integral<T>::value || is_floating_point<T>::value`, the operands being the
public traits with the client's specialisations; so a type registered with
either macro is arithmetic at once. -/
theorem is_arithmetic_eq_integral_or_floating_point (cfg : Config) (s : Specializations) :
    (∀ T : Ty, is_arithmetic cfg s T = (is_integral cfg s T || is_floating_point s T))
    ∧ (∀ (X : Ty) (t : Specializations),
        EASTL_DECLARE_INTEGRAL s X = some t → is_arithmetic cfg t X = true)
    ∧ (∀ (X : Ty) (t : Specializations),
        EASTL_DECLARE_FLOATING_POINT s X = some t → is_arithmetic cfg t X = true) := by
  refine ⟨fun _ => rfl, ?_, ?_⟩
  · intro X t h
    obtain ⟨-, -, hi, -⟩ := declare_integral_eq_some h
    simp [is_arithmetic, is_integral, hi, cv_rows]
  · intro X t h
    obtain ⟨-, -, hf, -⟩ := declare_floating_point_eq_some h
    simp [is_arithmetic, is_floating_point, hf, cv_rows]

/-- Witness of C4: class number 0, in no helper table, is arithmetic once it is
registered as integral. -/
theorem is_arithmetic_eq_integral_or_floating_point_witness :
    EASTL_DECLARE_INTEGRAL Specializations.empty (Ty.class_type CV.none 0)
        = some example_registered
    ∧ is_arithmetic Config.standard example_registered (Ty.class_type CV.none 0) = true :=
  ⟨example_registered_eq,
    (is_arithmetic_eq_integral_or_floating_point Config.standard Specializations.empty).2.1
      _ _ example_registered_eq⟩

/-- C5: for every record of registrations, `is_fundamental<T>::value` is
`is_void<T>::value || is_integral<T>::value || is_floating_point<T>::value ||
is_null_pointer<T>::value`, the operands being the public traits; so a type
registered with either macro is fundamental at once. -/
theorem is_fundamental_eq_or (cfg : Config) (s : Specializations) :
    (∀ T : Ty, is_fundamental cfg s T
      = (is_void T || is_integral cfg s T || is_floating_point s T || is_null_pointer cfg T))
    ∧ (∀ (X : Ty) (t : Specializations),
        EASTL_DECLARE_INTEGRAL s X = some t → is_fundamental cfg t X = true)
    ∧ (∀ (X : Ty) (t : Specializations),
        EASTL_DECLARE_FLOATING_POINT s X = some t → is_fundamental cfg t X = true) := by
  refine ⟨fun _ => rfl, ?_, ?_⟩
  · intro X t h
    obtain ⟨-, -, hi, -⟩ := declare_integral_eq_some h
    simp [is_fundamental, is_integral, hi, cv_rows]
  · intro X t h
    obtain ⟨-, -, hf, -⟩ := declare_floating_point_eq_some h
    simp [is_fundamental, is_floating_point, hf, cv_rows]

/-- Witness of C5: class number 0, in no table, is fundamental once it is
registered as integral. -/
theorem is_fundamental_eq_or_witness :
    EASTL_DECLARE_INTEGRAL Specializations.empty (Ty.class_type CV.none 0)
        = some example_registered
    ∧ is_fundamental Config.standard example_registered (Ty.class_type CV.none 0) = true :=
  ⟨example_registered_eq,
    (is_fundamental_eq_or Config.standard Specializations.empty).2.1 _ _ example_registered_eq⟩

/-- C6: the variadic `has_void_arg<Ts...>::value` is true exactly when some
element of the list is one of the four forms of `void`; it is false for the
empty list and for `int, double`, and true for `int, void, double`. -/
theorem has_void_arg_iff_exists :
    (∀ Ts : List Ty, has_void_arg Ts = true ↔ ∃ T ∈ Ts, is_void T = true)
    ∧ (∀ Ts : List Ty, has_void_arg Ts = true ↔ ∃ T ∈ Ts, T ∈ cv_rows (Ty.prim .void))
    ∧ has_void_arg [] = false
    ∧ has_void_arg [Ty.prim .int, Ty.prim .void, Ty.prim .double] = true
    ∧ has_void_arg [Ty.prim .int, Ty.prim .double] = false := by
  have key : ∀ Ts : List Ty, has_void_arg Ts = true ↔ ∃ T ∈ Ts, is_void T = true := by
    intro Ts
    induction Ts with
    | nil => simp [has_void_arg]
    | cons A0 Args ih => simp [has_void_arg, ih]
  refine ⟨key, ?_, rfl, rfl, rfl⟩
  intro Ts
  rw [key]
  constructor
  · rintro ⟨T, hT, hv⟩
    exact ⟨T, hT, (is_void_iff_mem_cv_rows T).1 hv⟩
  · rintro ⟨T, hT, hv⟩
    exact ⟨T, hT, (is_void_iff_mem_cv_rows T).2 hv⟩

/-- C7: `is_null_pointer<T>::value` is true exactly when `remove_cv<T>::type`
is the type of `nullptr`; it is false for every pointer type and every type
`is_integral` accepts; and the two branches of line 82 agree on every type. -/
theorem is_null_pointer_iff (cfg : Config) (T : Ty) :
    (is_null_pointer cfg T = true ↔ remove_cv T = decltype_nullptr)
    ∧ (∀ (q : CV) (P : Ty), is_null_pointer cfg (Ty.pointer q P) = false)
    ∧ is_null_pointer cfg (Ty.ptr (Ty.prim .void)) = false
    ∧ (∀ cfg0 : Config, is_integral cfg0 Specializations.empty T = true →
        is_null_pointer cfg T = false)
    ∧ (∀ cfg0 : Config, is_null_pointer cfg0 T = is_null_pointer cfg T) := by
  have h1 : ∀ (c : Config) (U : Ty),
      is_null_pointer c U = decide (remove_cv U = decltype_nullptr) := by
    intro c U
    unfold is_null_pointer is_same std_nullptr_t
    split <;> rfl
  refine ⟨by simp [h1], ?_, ?_, ?_, ?_⟩
  · intro q P
    simp [h1, remove_cv, decltype_nullptr, Ty.prim]
  · simp [h1, remove_cv, decltype_nullptr, Ty.prim, Ty.ptr]
  · intro cfg0 hi
    rw [h1]
    simp only [decide_eq_false_iff_not]
    intro hn
    simp [is_integral, Specializations.empty, hn, decltype_nullptr, Ty.prim, CV.none,
      is_integral_helper] at hi
  · intro cfg0
    rw [h1, h1]

/-- Witness of C7: `const int` is integral, hence not a null-pointer type. -/
theorem is_null_pointer_iff_witness :
    is_integral Config.standard Specializations.empty (Ty.prim .int).const = true
    ∧ is_null_pointer Config.standard (Ty.prim .int).const = false :=
  ⟨rfl, (is_null_pointer_iff Config.standard (Ty.prim .int).const).2.2.2.1 Config.standard rfl⟩

/-- C8: in every reachable record, `is_integral` gives the same value on `T`,
`const T`, `volatile T` and `const volatile T`, and so does
`is_floating_point`. -/
theorem is_integral_is_floating_point_cv_invariant (cfg : Config) (s : Specializations)
    (hs : Reachable s) (T : Ty) :
    (is_integral cfg s T.const = is_integral cfg s T
      ∧ is_integral cfg s T.volatile = is_integral cfg s T
      ∧ is_integral cfg s T.const_volatile = is_integral cfg s T)
    ∧ (is_floating_point s T.const = is_floating_point s T
      ∧ is_floating_point s T.volatile = is_floating_point s T
      ∧ is_floating_point s T.const_volatile = is_floating_point s T) := by
  have h := reachable_stable hs
  exact ⟨⟨is_integral_add_cv cfg h _ T, is_integral_add_cv cfg h _ T,
      is_integral_add_cv cfg h _ T⟩,
    ⟨is_floating_point_add_cv h _ T, is_floating_point_add_cv h _ T,
      is_floating_point_add_cv h _ T⟩⟩

/-- Witness of C8: `int` after class number 0 has been registered. -/
theorem is_integral_is_floating_point_cv_invariant_witness :
    Reachable example_registered
    ∧ is_integral Config.standard example_registered (Ty.prim .int).const
        = is_integral Config.standard example_registered (Ty.prim .int)
    ∧ is_integral Config.standard example_registered (Ty.prim .int).volatile
        = is_integral Config.standard example_registered (Ty.prim .int) :=
  ⟨example_registered_reachable,
    (is_integral_is_floating_point_cv_invariant Config.standard example_registered
      example_registered_reachable (Ty.prim .int)).1.1,
    (is_integral_is_floating_point_cv_invariant Config.standard example_registered
      example_registered_reachable (Ty.prim .int)).1.2.1⟩

/-- C9: when `EASTL_DECLARE_INTEGRAL(X)` is accepted for a type `X` that is not
floating point, `is_integral` is true on `X`, `const X`, `volatile X` and
`const volatile X`, and `is_floating_point<X>::value` is still false; the same
with the two traits exchanged for `EASTL_DECLARE_FLOATING_POINT(X)`.  The
registration of an unqualified object type not registered before is accepted
in every reachable record. -/
theorem registration_classifies_all_cv_rows (cfg : Config) (s : Specializations) (X : Ty) :
    (∀ t : Specializations, EASTL_DECLARE_INTEGRAL s X = some t →
        is_floating_point s X = false →
        is_integral cfg t X = true ∧ is_integral cfg t X.const = true
          ∧ is_integral cfg t X.volatile = true ∧ is_integral cfg t X.const_volatile = true
          ∧ is_floating_point t X = false)
    ∧ (∀ t : Specializations, EASTL_DECLARE_FLOATING_POINT s X = some t →
        is_integral cfg s X = false →
        is_floating_point t X = true ∧ is_floating_point t X.const = true
          ∧ is_floating_point t X.volatile = true ∧ is_floating_point t X.const_volatile = true
          ∧ is_integral cfg t X = false)
    ∧ (Reachable s → X.unqualified = true → X ∉ s.is_integral →
        ∃ t, EASTL_DECLARE_INTEGRAL s X = some t)
    ∧ (Reachable s → X.unqualified = true → X ∉ s.is_floating_point →
        ∃ t, EASTL_DECLARE_FLOATING_POINT s X = some t) := by
  refine ⟨?_, ?_, ?_, ?_⟩
  · intro t h hf
    obtain ⟨-, -, hi, hfp⟩ := declare_integral_eq_some h
    refine ⟨?_, ?_, ?_, ?_, ?_⟩
    · simp [is_integral, hi, cv_rows]
    · simp [is_integral, hi, cv_rows]
    · simp [is_integral, hi, cv_rows]
    · simp [is_integral, hi, cv_rows]
    · simpa [is_floating_point, hfp] using hf
  · intro t h hi
    obtain ⟨-, -, hfp, hin⟩ := declare_floating_point_eq_some h
    refine ⟨?_, ?_, ?_, ?_, ?_⟩
    · simp [is_floating_point, hfp, cv_rows]
    · simp [is_floating_point, hfp, cv_rows]
    · simp [is_floating_point, hfp, cv_rows]
    · simp [is_floating_point, hfp, cv_rows]
    · simpa [is_integral, hin] using hi
  · intro hs hu hX
    exact Option.ne_none_iff_exists'.1
      (fun hn => by
        rcases (declare_integral_eq_none hs X).1 hn with h | h
        · simp [hu] at h
        · exact hX h)
  · intro hs hu hX
    exact Option.ne_none_iff_exists'.1
      (fun hn => by
        rcases (declare_floating_point_eq_none hs X).1 hn with h | h
        · simp [hu] at h
        · exact hX h)

/-- Witness of C9: class number 0 registered as integral in the header alone. -/
theorem registration_classifies_all_cv_rows_witness :
    EASTL_DECLARE_INTEGRAL Specializations.empty (Ty.class_type CV.none 0)
        = some example_registered
    ∧ is_floating_point Specializations.empty (Ty.class_type CV.none 0) = false
    ∧ is_integral Config.standard example_registered (Ty.class_type CV.none 0) = true
    ∧ is_integral Config.standard example_registered (Ty.class_type CV.none 0).const = true
    ∧ is_integral Config.standard example_registered (Ty.class_type CV.none 0).volatile = true
    ∧ is_integral Config.standard example_registered
        (Ty.class_type CV.none 0).const_volatile = true
    ∧ is_floating_point example_registered (Ty.class_type CV.none 0) = false :=
  ⟨example_registered_eq, rfl,
    (registration_classifies_all_cv_rows Config.standard Specializations.empty
      (Ty.class_type CV.none 0)).1 example_registered example_registered_eq rfl⟩

/-- C10, counterexample: `int` is an entry of the integral table, yet
`EASTL_DECLARE_INTEGRAL(int)` and `EASTL_DECLARE_FLOATING_POINT(int)` are both
accepted on the header alone, and after the latter `int` is integral and
floating point at once. -/
theorem declare_primitive_int_accepted :
    is_integral_helper Config.standard (Ty.prim .int) = true
    ∧ EASTL_DECLARE_INTEGRAL Specializations.empty (Ty.prim .int)
        = some ⟨cv_rows (Ty.prim .int), []⟩
    ∧ EASTL_DECLARE_FLOATING_POINT Specializations.empty (Ty.prim .int)
        = some ⟨[], cv_rows (Ty.prim .int)⟩
    ∧ is_integral Config.standard ⟨[], cv_rows (Ty.prim .int)⟩ (Ty.prim .int) = true
    ∧ is_floating_point ⟨[], cv_rows (Ty.prim .int)⟩ (Ty.prim .int) = true := by
  refine ⟨rfl, ?_, ?_, rfl, ?_⟩
  · simp [EASTL_DECLARE_INTEGRAL, Specializations.empty, cv_rows_nodup_iff, Ty.unqualified,
      Ty.prim]
  · simp [EASTL_DECLARE_FLOATING_POINT, Specializations.empty, cv_rows_nodup_iff,
      Ty.unqualified, Ty.prim]
  · simp [is_floating_point, cv_rows]

/-- C10, amended: an entry of a helper table is not refused by the registrar.
Directly after the header both macros are accepted for it.  Whenever one is
accepted, the registered trait is true of the type; registering the type for
the trait whose table it is in changes no value of that trait, and
registering it for the other trait leaves the first trait's values as they
were, so that the type is then integral and floating point at once. -/
theorem declare_primitive_accepted_and_kept (cfg : Config) (X : Ty)
    (hX : is_integral_helper cfg X = true ∨ is_floating_point_helper X = true) :
    ((∃ t, EASTL_DECLARE_INTEGRAL Specializations.empty X = some t)
      ∧ ∃ t, EASTL_DECLARE_FLOATING_POINT Specializations.empty X = some t)
    ∧ (∀ s t : Specializations, EASTL_DECLARE_INTEGRAL s X = some t →
        is_integral cfg t X = true
        ∧ (is_integral_helper cfg X = true → ∀ T : Ty, is_integral cfg t T = is_integral cfg s T)
        ∧ (∀ T : Ty, is_floating_point t T = is_floating_point s T)
        ∧ (is_floating_point_helper X = true →
            is_integral cfg t X = true ∧ is_floating_point t X = true))
    ∧ (∀ s t : Specializations, EASTL_DECLARE_FLOATING_POINT s X = some t →
        is_floating_point t X = true
        ∧ (is_floating_point_helper X = true →
            ∀ T : Ty, is_floating_point t T = is_floating_point s T)
        ∧ (∀ T : Ty, is_integral cfg t T = is_integral cfg s T)
        ∧ (is_integral_helper cfg X = true →
            is_integral cfg t X = true ∧ is_floating_point t X = true)) := by
  have hu : X.unqualified = true := helper_entry_unqualified cfg X hX
  have hself : remove_cv X = X := remove_cv_eq_self X hu
  refine ⟨⟨?_, ?_⟩, ?_, ?_⟩
  · refine Option.ne_none_iff_exists'.1 (fun hn => ?_)
    rcases (declare_integral_eq_none_iff _ X).1 hn with h | ⟨R, -, hR⟩
    · rw [hu] at h; exact Bool.noConfusion h
    · simp [Specializations.empty] at hR
  · refine Option.ne_none_iff_exists'.1 (fun hn => ?_)
    rcases (declare_floating_point_eq_none_iff _ X).1 hn with h | ⟨R, -, hR⟩
    · rw [hu] at h; exact Bool.noConfusion h
    · simp [Specializations.empty] at hR
  · intro s t h
    have key := declare_integral_frame cfg h
    have hXt : is_integral cfg t X = true := by
      rw [(key X).1]; simp [self_mem_cv_rows]
    refine ⟨hXt, ?_, fun T => (key T).2, ?_⟩
    · intro hh T
      rw [(key T).1]
      by_cases hT : T ∈ cv_rows X
      · have h1 : remove_cv T = X := (mem_cv_rows_iff X hu T).1 hT
        have h2 : is_integral cfg s T = true := by
          unfold is_integral
          rw [h1, hh]
          simp
        rw [h2]; simp
      · simp [hT]
    · intro hf
      refine ⟨hXt, ?_⟩
      rw [(key X).2]
      unfold is_floating_point
      rw [hself, hf]
      simp
  · intro s t h
    have key := declare_floating_point_frame cfg h
    have hXt : is_floating_point t X = true := by
      rw [(key X).1]; simp [self_mem_cv_rows]
    refine ⟨hXt, ?_, fun T => (key T).2, ?_⟩
    · intro hh T
      rw [(key T).1]
      by_cases hT : T ∈ cv_rows X
      · have h1 : remove_cv T = X := (mem_cv_rows_iff X hu T).1 hT
        have h2 : is_floating_point s T = true := by
          unfold is_floating_point
          rw [h1, hh]
          simp
        rw [h2]; simp
      · simp [hT]
    · intro hi
      refine ⟨?_, hXt⟩
      rw [(key X).2]
      unfold is_integral
      rw [hself, hi]
      simp

/-- Witness of the amended C10: `float`, an entry of the floating-point table,
is accepted by `EASTL_DECLARE_INTEGRAL` directly after the header. -/
theorem declare_primitive_accepted_and_kept_witness :
    (is_integral_helper Config.standard (Ty.prim .float) = true
      ∨ is_floating_point_helper (Ty.prim .float) = true)
    ∧ ∃ t, EASTL_DECLARE_INTEGRAL Specializations.empty (Ty.prim .float) = some t :=
  ⟨Or.inr rfl, (declare_primitive_accepted_and_kept Config.standard (Ty.prim .float)
    (Or.inr rfl)).1.1⟩

/-! ## Further facts used by the later claims -/

theorem is_void_eq_decide (T : Ty) : is_void T = decide (remove_cv T = Ty.prim .void) := by
  cases T with
  | builtin q b =>
    obtain ⟨c, v⟩ := q
    cases c <;> cases v <;> cases b <;> simp [is_void, remove_cv, Ty.prim]
  | _ => simp [is_void, remove_cv, Ty.prim]

theorem is_null_pointer_eq_decide (cfg : Config) (T : Ty) :
    is_null_pointer cfg T = decide (remove_cv T = decltype_nullptr) := by
  unfold is_null_pointer is_same std_nullptr_t
  split <;> rfl

theorem categories_count (cfg : Config) (U : Ty) :
    List.count true [decide (U = Ty.prim .void), is_integral_helper cfg U,
      is_floating_point_helper U, decide (U = decltype_nullptr)] ≤ 1 := by
  obtain ⟨w, nv, d⟩ := cfg
  cases U with
  | builtin q b =>
    obtain ⟨c, v⟩ := q
    cases w <;> cases c <;> cases v <;> cases b <;>
      simp [is_integral_helper, is_floating_point_helper, decltype_nullptr, Ty.prim, CV.none]
  | _ => simp [is_integral_helper, is_floating_point_helper, decltype_nullptr, Ty.prim]

theorem integral_not_floating_point (cfg : Config) (U : Ty)
    (h : is_integral_helper cfg U = true) : is_floating_point_helper U = false := by
  have h1 := categories_count cfg U
  cases hf : is_floating_point_helper U with
  | false => rfl
  | true =>
    rw [h, hf] at h1
    simp [List.count_cons] at h1
    omega

/-! ## The claims, continued -/

/-- C11: with no registration, at most one of `is_void`, `is_integral`,
`is_floating_point` and `is_null_pointer` is true of a type; every listed
integral type (with a native `wchar_t`), in any qualification, is integral and
not floating point, and `float`, `double`, `long double` are floating point and
not integral. -/
theorem primitive_categories_disjoint (cfg : Config) :
    (∀ T : Ty, List.count true [is_void T, is_integral cfg Specializations.empty T,
        is_floating_point Specializations.empty T, is_null_pointer cfg T] ≤ 1)
    ∧ (cfg.EA_WCHAR_T_NON_NATIVE = false → ∀ T : Ty, remove_cv T ∈ integral_types →
        is_integral cfg Specializations.empty T = true
          ∧ is_floating_point Specializations.empty T = false)
    ∧ (∀ T : Ty, remove_cv T ∈ floating_point_types →
        is_floating_point Specializations.empty T = true
          ∧ is_integral cfg Specializations.empty T = false) := by
  have hi : ∀ T, is_integral cfg Specializations.empty T
      = is_integral_helper cfg (remove_cv T) := by
    intro T; simp [is_integral, Specializations.empty]
  have hf : ∀ T, is_floating_point Specializations.empty T
      = is_floating_point_helper (remove_cv T) := by
    intro T; simp [is_floating_point, Specializations.empty]
  refine ⟨?_, ?_, ?_⟩
  · intro T
    rw [is_void_eq_decide, is_null_pointer_eq_decide, hi, hf]
    exact categories_count cfg (remove_cv T)
  · intro hw T hT
    have h1 := (is_integral_helper_iff cfg hw (remove_cv T)).2 hT
    rw [hi, hf]
    exact ⟨h1, integral_not_floating_point cfg _ h1⟩
  · intro T hT
    have h1 := (is_floating_point_helper_iff (remove_cv T)).2 hT
    rw [hi, hf]
    refine ⟨h1, ?_⟩
    cases h2 : is_integral_helper cfg (remove_cv T) with
    | false => rfl
    | true =>
      rw [integral_not_floating_point cfg _ h2] at h1
      exact Bool.noConfusion h1

/-- Witness of C11: `volatile long` in the standard configuration. -/
theorem primitive_categories_disjoint_witness :
    Config.standard.EA_WCHAR_T_NON_NATIVE = false
    ∧ remove_cv (Ty.prim .long).volatile ∈ integral_types
    ∧ is_integral Config.standard Specializations.empty (Ty.prim .long).volatile = true
    ∧ is_floating_point Specializations.empty (Ty.prim .long).volatile = false :=
  ⟨rfl, by simp [integral_types, remove_cv, Ty.volatile, Ty.add_cv, Ty.prim],
    (primitive_categories_disjoint Config.standard).2.1 rfl (Ty.prim .long).volatile
      (by simp [integral_types, remove_cv, Ty.volatile, Ty.add_cv, Ty.prim])⟩

/-- C12: on every list of one to six types the six-parameter `has_void_arg`,
with the unused parameters at their default `int`, has the value of the
structural recursion `is_void<head> || has_void_arg<tail...>`. -/
theorem has_void_arg_fixed_agrees (A0 : Ty) (Args : List Ty) (h : Args.length ≤ 5) :
    has_void_arg_fixed_instantiate (A0 :: Args) = some (is_void A0 || has_void_arg Args)
    ∧ has_void_arg_fixed_instantiate (A0 :: Args) = some (has_void_arg (A0 :: Args)) := by
  have hint : is_void (Ty.prim Builtin.int) = false := rfl
  match Args, h with
  | [], _ => simp [has_void_arg_fixed_instantiate, has_void_arg_fixed, has_void_arg, hint]
  | [_], _ => simp [has_void_arg_fixed_instantiate, has_void_arg_fixed, has_void_arg, hint]
  | [_, _], _ =>
    simp [has_void_arg_fixed_instantiate, has_void_arg_fixed, has_void_arg, hint, Bool.or_assoc]
  | [_, _, _], _ =>
    simp [has_void_arg_fixed_instantiate, has_void_arg_fixed, has_void_arg, hint, Bool.or_assoc]
  | [_, _, _, _], _ =>
    simp [has_void_arg_fixed_instantiate, has_void_arg_fixed, has_void_arg, hint, Bool.or_assoc]
  | [_, _, _, _, _], _ =>
    simp [has_void_arg_fixed_instantiate, has_void_arg_fixed, has_void_arg, hint, Bool.or_assoc]
  | _ :: _ :: _ :: _ :: _ :: _ :: _, h => simp at h

/-- Witness of C12: `has_void_arg<int, void, double>` in the six-parameter branch. -/
theorem has_void_arg_fixed_agrees_witness :
    [Ty.prim .void, Ty.prim .double].length ≤ 5
    ∧ has_void_arg_fixed_instantiate [Ty.prim .int, Ty.prim .void, Ty.prim .double]
        = some (has_void_arg [Ty.prim .int, Ty.prim .void, Ty.prim .double]) :=
  ⟨by decide,
    (has_void_arg_fixed_agrees (Ty.prim .int) [Ty.prim .void, Ty.prim .double] (by decide)).2⟩

/-- C13, counterexample: a seventh argument is not ignored; the template-id
`has_void_arg<int, int, int, int, int, int, void>` of the six-parameter
template is ill-formed, while the first six arguments alone give `false`. -/
theorem has_void_arg_fixed_seven_rejected :
    has_void_arg_fixed_instantiate
        [Ty.prim .int, Ty.prim .int, Ty.prim .int, Ty.prim .int, Ty.prim .int, Ty.prim .int,
          Ty.prim .void] = none
    ∧ has_void_arg_fixed_instantiate
        [Ty.prim .int, Ty.prim .int, Ty.prim .int, Ty.prim .int, Ty.prim .int, Ty.prim .int]
        = some false := by
  constructor <;> rfl

/-- C13, amended: the six-parameter `has_void_arg` accepts exactly the lists of
one to six types; a list of more than six types is rejected and has no
result. -/
theorem has_void_arg_fixed_accepts_iff (Ts : List Ty) :
    ((has_void_arg_fixed_instantiate Ts).isSome = true ↔ 1 ≤ Ts.length ∧ Ts.length ≤ 6)
    ∧ (6 < Ts.length → has_void_arg_fixed_instantiate Ts = none) := by
  match Ts with
  | [] => simp [has_void_arg_fixed_instantiate]
  | [_] => simp [has_void_arg_fixed_instantiate]
  | [_, _] => simp [has_void_arg_fixed_instantiate]
  | [_, _, _] => simp [has_void_arg_fixed_instantiate]
  | [_, _, _, _] => simp [has_void_arg_fixed_instantiate]
  | [_, _, _, _, _] => simp [has_void_arg_fixed_instantiate]
  | [_, _, _, _, _, _] => simp [has_void_arg_fixed_instantiate]
  | _ :: _ :: _ :: _ :: _ :: _ :: _ :: _ => simp [has_void_arg_fixed_instantiate]

/-- Witness of the amended C13: seven types. -/
theorem has_void_arg_fixed_accepts_iff_witness :
    6 < [Ty.prim .int, Ty.prim .int, Ty.prim .int, Ty.prim .int, Ty.prim .int, Ty.prim .int,
          Ty.prim .void].length
    ∧ has_void_arg_fixed_instantiate
        [Ty.prim .int, Ty.prim .int, Ty.prim .int, Ty.prim .int, Ty.prim .int, Ty.prim .int,
          Ty.prim .void] = none :=
  ⟨by decide, (has_void_arg_fixed_accepts_iff _).2 (by decide)⟩

/-! ## The classes and their values -/

theorem is_void_struct_eq (T : Ty) : is_void_struct T = .derives ⟨is_void T⟩ := by
  cases T with
  | builtin q b =>
    obtain ⟨c, v⟩ := q
    cases c <;> cases v <;> cases b <;> rfl
  | _ => rfl

theorem is_integral_helper_struct_eq (cfg : Config) (T : Ty) :
    is_integral_helper_struct cfg T = .derives ⟨is_integral_helper cfg T⟩ := by
  obtain ⟨w, nv, d⟩ := cfg
  cases T with
  | builtin q b =>
    obtain ⟨c, v⟩ := q
    cases w <;> cases c <;> cases v <;> cases b <;> rfl
  | _ => rfl

theorem is_floating_point_helper_struct_eq (T : Ty) :
    is_floating_point_helper_struct T = .derives ⟨is_floating_point_helper T⟩ := by
  cases T with
  | builtin q b =>
    obtain ⟨c, v⟩ := q
    cases c <;> cases v <;> cases b <;> rfl
  | _ => rfl

theorem is_integral_struct_eq (cfg : Config) (s : Specializations) (T : Ty) :
    is_integral_struct cfg s T = .derives ⟨is_integral cfg s T⟩ := by
  unfold is_integral_struct is_integral
  split
  · rfl
  · exact is_integral_helper_struct_eq cfg _

theorem is_floating_point_struct_eq (s : Specializations) (T : Ty) :
    is_floating_point_struct s T = .derives ⟨is_floating_point s T⟩ := by
  unfold is_floating_point_struct is_floating_point
  split
  · rfl
  · exact is_floating_point_helper_struct_eq _

theorem is_null_pointer_struct_eq (cfg : Config) (T : Ty) :
    is_null_pointer_struct cfg T = .derives ⟨is_null_pointer cfg T⟩ := by
  unfold is_null_pointer_struct is_null_pointer is_same_struct is_same
  split <;> split <;> simp_all [true_type, false_type]

theorem has_void_arg_struct_value (Ts : List Ty) :
    (has_void_arg_struct Ts).value = has_void_arg Ts := by
  induction Ts with
  | nil => rfl
  | cons A0 Args ih =>
    show ((is_void_struct A0).value || (has_void_arg_struct Args).value)
      = (is_void A0 || has_void_arg Args)
    rw [ih, is_void_struct_eq]
    rfl

/-- C14, counterexample: `has_void_arg<void>` of the six-parameter branch and
`has_void_arg<int, void, double>` of the variadic branch have the member
`value`, which is true, and no Boolean Constant base. -/
theorem has_void_arg_not_boolean_constant :
    (has_void_arg_fixed_struct (Ty.prim .void)).boolean_constant = none
    ∧ (has_void_arg_fixed_struct (Ty.prim .void)).value = true
    ∧ (has_void_arg_struct [Ty.prim .int, Ty.prim .void, Ty.prim .double]).boolean_constant
        = none
    ∧ (has_void_arg_struct [Ty.prim .int, Ty.prim .void, Ty.prim .double]).value = true := by
  refine ⟨rfl, rfl, rfl, rfl⟩

/-- C14, amended: `is_void`, `is_null_pointer`, `is_integral`,
`is_floating_point`, `is_arithmetic` and `is_fundamental`, for every type and
every record of registrations, and `has_void_arg<>` are Boolean Constants whose
value is the value of the trait.  `has_void_arg` of any list has the member
`value` with the value of the trait; the six-parameter `has_void_arg` has that
member and no Boolean Constant base. -/
theorem traits_expose_boolean_constant (cfg : Config) (s : Specializations) (T : Ty) :
    (is_void_struct T).boolean_constant = some ⟨is_void T⟩
    ∧ (is_null_pointer_struct cfg T).boolean_constant = some ⟨is_null_pointer cfg T⟩
    ∧ (is_integral_struct cfg s T).boolean_constant = some ⟨is_integral cfg s T⟩
    ∧ (is_floating_point_struct s T).boolean_constant = some ⟨is_floating_point s T⟩
    ∧ (is_arithmetic_struct cfg s T).boolean_constant = some ⟨is_arithmetic cfg s T⟩
    ∧ (is_fundamental_struct cfg s T).boolean_constant = some ⟨is_fundamental cfg s T⟩
    ∧ (has_void_arg_struct []).boolean_constant = some ⟨has_void_arg []⟩
    ∧ (∀ Ts : List Ty, (has_void_arg_struct Ts).value = has_void_arg Ts)
    ∧ (∀ A0 A1 A2 A3 A4 A5 : Ty,
        (has_void_arg_fixed_struct A0 A1 A2 A3 A4 A5).value
            = has_void_arg_fixed A0 A1 A2 A3 A4 A5
          ∧ (has_void_arg_fixed_struct A0 A1 A2 A3 A4 A5).boolean_constant = none) := by
  refine ⟨?_, ?_, ?_, ?_, ?_, ?_, rfl, has_void_arg_struct_value, ?_⟩
  · rw [is_void_struct_eq]; rfl
  · rw [is_null_pointer_struct_eq]; rfl
  · rw [is_integral_struct_eq]; rfl
  · rw [is_floating_point_struct_eq]; rfl
  · simp [is_arithmetic_struct, is_arithmetic, is_integral_struct_eq,
      is_floating_point_struct_eq, TraitClass.value, TraitClass.boolean_constant]
  · simp [is_fundamental_struct, is_fundamental, is_integral_struct_eq,
      is_floating_point_struct_eq, is_void_struct_eq, is_null_pointer_struct_eq,
      TraitClass.value, TraitClass.boolean_constant]
  · intro A0 A1 A2 A3 A4 A5
    simp [has_void_arg_fixed_struct, has_void_arg_fixed, is_void_struct_eq, TraitClass.value,
      TraitClass.boolean_constant]

/-! ## Qualification and registration frames -/

theorem is_void_add_cv (q : CV) (T : Ty) : is_void (Ty.add_cv q T) = is_void T := by
  rw [is_void_eq_decide, is_void_eq_decide, remove_cv_add_cv]

theorem is_null_pointer_add_cv (cfg : Config) (q : CV) (T : Ty) :
    is_null_pointer cfg (Ty.add_cv q T) = is_null_pointer cfg T := by
  rw [is_null_pointer_eq_decide, is_null_pointer_eq_decide, remove_cv_add_cv]

theorem is_arithmetic_add_cv (cfg : Config) {s : Specializations} (hs : s.stable) (q : CV)
    (T : Ty) : is_arithmetic cfg s (Ty.add_cv q T) = is_arithmetic cfg s T := by
  unfold is_arithmetic
  rw [is_integral_add_cv cfg hs, is_floating_point_add_cv hs]

theorem is_fundamental_add_cv (cfg : Config) {s : Specializations} (hs : s.stable) (q : CV)
    (T : Ty) : is_fundamental cfg s (Ty.add_cv q T) = is_fundamental cfg s T := by
  unfold is_fundamental
  rw [is_integral_add_cv cfg hs, is_floating_point_add_cv hs, is_void_add_cv,
    is_null_pointer_add_cv]

/-- C15: `remove_cv` is idempotent; it gives the same type on `T`, `const T`,
`volatile T` and `const volatile T`, and that type is `T` itself when `T` is
unqualified. -/
theorem remove_cv_idempotent (T : Ty) :
    remove_cv (remove_cv T) = remove_cv T
    ∧ remove_cv T.const = remove_cv T
    ∧ remove_cv T.volatile = remove_cv T
    ∧ remove_cv T.const_volatile = remove_cv T
    ∧ (T.unqualified = true →
        remove_cv T = T ∧ remove_cv T.const = T ∧ remove_cv T.volatile = T
          ∧ remove_cv T.const_volatile = T) := by
  refine ⟨remove_cv_idem T, remove_cv_add_cv _ T, remove_cv_add_cv _ T, remove_cv_add_cv _ T, ?_⟩
  intro h
  have h1 := remove_cv_eq_self T h
  refine ⟨h1, ?_, ?_, ?_⟩
  · exact (remove_cv_add_cv _ T).trans h1
  · exact (remove_cv_add_cv _ T).trans h1
  · exact (remove_cv_add_cv _ T).trans h1

/-- Witness of C15: the four forms of `int*` all strip to `int*`. -/
theorem remove_cv_idempotent_witness :
    (Ty.ptr (Ty.prim .int)).unqualified = true
    ∧ remove_cv (Ty.ptr (Ty.prim .int)) = Ty.ptr (Ty.prim .int)
    ∧ remove_cv (Ty.ptr (Ty.prim .int)).const = Ty.ptr (Ty.prim .int)
    ∧ remove_cv (Ty.ptr (Ty.prim .int)).volatile = Ty.ptr (Ty.prim .int)
    ∧ remove_cv (Ty.ptr (Ty.prim .int)).const_volatile = Ty.ptr (Ty.prim .int) :=
  ⟨rfl, (remove_cv_idempotent (Ty.ptr (Ty.prim .int))).2.2.2.2 rfl⟩

/-- C16: the four specialisations of `is_void` amount to one entry after
normalisation: `is_void<T>::value` holds exactly when `remove_cv<T>::type` is
`void`, so it does not change when qualifiers are added or removed. -/
theorem is_void_eq_by_normalisation (T : Ty) :
    is_void T = is_void_by_normalisation T
    ∧ (is_void T = true ↔ remove_cv T = Ty.prim .void)
    ∧ is_void T.const = is_void T
    ∧ is_void T.volatile = is_void T
    ∧ is_void T.const_volatile = is_void T
    ∧ is_void (remove_cv T) = is_void T := by
  refine ⟨?_, ?_, is_void_add_cv _ T, is_void_add_cv _ T, is_void_add_cv _ T, ?_⟩
  · rw [is_void_eq_decide]; rfl
  · rw [is_void_eq_decide]; simp
  · rw [is_void_eq_decide, is_void_eq_decide, remove_cv_idem]

/-- C17: in every reachable record `is_arithmetic` gives the same value on
`T`, `const T`, `volatile T` and `const volatile T`, and so does
`is_fundamental`. -/
theorem is_arithmetic_is_fundamental_cv_invariant (cfg : Config) (s : Specializations)
    (hs : Reachable s) (T : Ty) :
    (is_arithmetic cfg s T.const = is_arithmetic cfg s T
      ∧ is_arithmetic cfg s T.volatile = is_arithmetic cfg s T
      ∧ is_arithmetic cfg s T.const_volatile = is_arithmetic cfg s T)
    ∧ (is_fundamental cfg s T.const = is_fundamental cfg s T
      ∧ is_fundamental cfg s T.volatile = is_fundamental cfg s T
      ∧ is_fundamental cfg s T.const_volatile = is_fundamental cfg s T) := by
  have h := reachable_stable hs
  exact ⟨⟨is_arithmetic_add_cv cfg h _ T, is_arithmetic_add_cv cfg h _ T,
      is_arithmetic_add_cv cfg h _ T⟩,
    ⟨is_fundamental_add_cv cfg h _ T, is_fundamental_add_cv cfg h _ T,
      is_fundamental_add_cv cfg h _ T⟩⟩

/-- Witness of C17: class number 0 after it has been registered as integral. -/
theorem is_arithmetic_is_fundamental_cv_invariant_witness :
    Reachable example_registered
    ∧ is_arithmetic Config.standard example_registered (Ty.class_type CV.none 0).const
        = is_arithmetic Config.standard example_registered (Ty.class_type CV.none 0)
    ∧ is_fundamental Config.standard example_registered (Ty.class_type CV.none 0).const
        = is_fundamental Config.standard example_registered (Ty.class_type CV.none 0) :=
  ⟨example_registered_reachable,
    (is_arithmetic_is_fundamental_cv_invariant Config.standard example_registered
      example_registered_reachable (Ty.class_type CV.none 0)).1.1,
    (is_arithmetic_is_fundamental_cv_invariant Config.standard example_registered
      example_registered_reachable (Ty.class_type CV.none 0)).2.1⟩

/-- C18: an accepted `EASTL_DECLARE_INTEGRAL(X)` leaves `is_integral` as it was
on every type other than `X`, `const X`, `volatile X`, `const volatile X`, and
leaves `is_floating_point` as it was on every type (`is_void` and
`is_null_pointer` do not read the record); hence `is_arithmetic` and
`is_fundamental` are unchanged off the four types, and no trait goes from true
to false.  The same holds for `EASTL_DECLARE_FLOATING_POINT(X)` with the two
traits exchanged. -/
theorem registration_changes_only_its_rows (cfg : Config) (s t : Specializations) (X : Ty) :
    (EASTL_DECLARE_INTEGRAL s X = some t →
      (∀ T : Ty, T ∉ cv_rows X → is_integral cfg t T = is_integral cfg s T)
      ∧ (∀ T : Ty, is_floating_point t T = is_floating_point s T)
      ∧ (∀ T : Ty, T ∉ cv_rows X → is_arithmetic cfg t T = is_arithmetic cfg s T
          ∧ is_fundamental cfg t T = is_fundamental cfg s T)
      ∧ (∀ T : Ty, (is_integral cfg s T = true → is_integral cfg t T = true)
          ∧ (is_arithmetic cfg s T = true → is_arithmetic cfg t T = true)
          ∧ (is_fundamental cfg s T = true → is_fundamental cfg t T = true)))
    ∧ (EASTL_DECLARE_FLOATING_POINT s X = some t →
      (∀ T : Ty, T ∉ cv_rows X → is_floating_point t T = is_floating_point s T)
      ∧ (∀ T : Ty, is_integral cfg t T = is_integral cfg s T)
      ∧ (∀ T : Ty, T ∉ cv_rows X → is_arithmetic cfg t T = is_arithmetic cfg s T
          ∧ is_fundamental cfg t T = is_fundamental cfg s T)
      ∧ (∀ T : Ty, (is_floating_point s T = true → is_floating_point t T = true)
          ∧ (is_arithmetic cfg s T = true → is_arithmetic cfg t T = true)
          ∧ (is_fundamental cfg s T = true → is_fundamental cfg t T = true))) := by
  constructor
  · intro h
    have key := declare_integral_frame cfg h
    refine ⟨?_, fun T => (key T).2, ?_, ?_⟩
    · intro T hT
      rw [(key T).1]; simp [hT]
    · intro T hT
      simp [is_arithmetic, is_fundamental, (key T).1, (key T).2, hT]
    · intro T
      simp only [is_arithmetic, is_fundamental, (key T).1, (key T).2]
      refine ⟨?_, ?_, ?_⟩ <;> intro h1 <;> simp_all <;> tauto
  · intro h
    have key := declare_floating_point_frame cfg h
    refine ⟨?_, fun T => (key T).2, ?_, ?_⟩
    · intro T hT
      rw [(key T).1]; simp [hT]
    · intro T hT
      simp [is_arithmetic, is_fundamental, (key T).1, (key T).2, hT]
    · intro T
      simp only [is_arithmetic, is_fundamental, (key T).1, (key T).2]
      refine ⟨?_, ?_, ?_⟩ <;> intro h1 <;> simp_all <;> tauto

/-- Witness of C18: registering class number 0 leaves `int` integral. -/
theorem registration_changes_only_its_rows_witness :
    EASTL_DECLARE_INTEGRAL Specializations.empty (Ty.class_type CV.none 0)
        = some example_registered
    ∧ Ty.prim .int ∉ cv_rows (Ty.class_type CV.none 0)
    ∧ is_integral Config.standard example_registered (Ty.prim .int)
        = is_integral Config.standard Specializations.empty (Ty.prim .int) :=
  ⟨example_registered_eq, by simp [cv_rows, Ty.prim, Ty.const, Ty.volatile, Ty.const_volatile,
      Ty.add_cv],
    ((registration_changes_only_its_rows Config.standard Specializations.empty
      example_registered (Ty.class_type CV.none 0)).1 example_registered_eq).1 _
      (by simp [cv_rows, Ty.prim, Ty.const, Ty.volatile, Ty.const_volatile, Ty.add_cv])⟩

end eastl
